import Mathlib

/-!
Shallow embedding of the deployment-registry, result-cache and render-guard
logic of the `awscldidp` operator console, together with theorems settling
the specification claims about it.

Sources embedded:
- `modules_resource_inventory.py`: `CICDDeployment`, `CICDIntegrationManager`
  (`get_recent_deployments`, `_get_demo_deployments`, `_get_github_deployments`,
  `_get_gitlab_deployments`, `approve_deployment`, `reject_deployment`,
  `trigger_pipeline`) and `ProvisioningModuleEnhanced.render`;
- `modules_provisioning.py`: `PerformanceOptimizer.load_once` and the
  cache-clearing click branch of `PerformanceOptimizer.add_refresh_button`;
- `modules_operations.py`: `OperationsModule.render`.

Time is modelled in minutes as `Int` (the Python code uses `datetime.now()`
and `timedelta`); a demo record triggered `timedelta(hours=2)` ago has
`triggered_at = now - 120`.
-/

namespace Awscldidp

/-- Embeds the `CICDDeployment` dataclass (modules_resource_inventory.py,
lines 20-35).  Field names and order follow the Python dataclass; timestamps
are minutes as `Int`.  Note the dataclass has exactly these fields: it
carries no data-source / fallback flag of any kind. -/
structure CICDDeployment where
  pipeline_id : String
  pipeline_name : String
  status : String
  environment : String
  stack_name : String
  commit_hash : String
  commit_message : String
  author : String
  triggered_at : Int
  completed_at : Option Int
  approval_required : Bool := false
  change_set_url : Option String := none
  pipeline_url : Option String := none
deriving Repr, DecidableEq

/-- Embeds `CICDIntegrationManager._get_demo_deployments` (lines 87-172):
a hard-coded list of six records whose timestamps are offsets from `now`.
The list is returned exactly in the order it is written in the source. -/
def get_demo_deployments (now : Int) : List CICDDeployment :=
  [ { pipeline_id := "GHA-1234"
    , pipeline_name := "Deploy Infrastructure"
    , status := "success"
    , environment := "production"
    , stack_name := "prod-vpc-stack"
    , commit_hash := "abc1234"
    , commit_message := "Add production VPC with 3 AZs"
    , author := "John Doe"
    , triggered_at := now - 120
    , completed_at := some (now - 105)
    , pipeline_url := some "https://github.com/org/repo/actions/runs/1234" }
  , { pipeline_id := "GHA-1235"
    , pipeline_name := "Deploy Infrastructure"
    , status := "pending_approval"
    , environment := "production"
    , stack_name := "prod-rds-stack"
    , commit_hash := "def5678"
    , commit_message := "Add production RDS with read replicas"
    , author := "Jane Smith"
    , triggered_at := now - 30
    , completed_at := none
    , approval_required := true
    , change_set_url := some "https://github.com/org/repo/pull/456"
    , pipeline_url := some "https://github.com/org/repo/actions/runs/1235" }
  , { pipeline_id := "GHA-1233"
    , pipeline_name := "Deploy Infrastructure"
    , status := "success"
    , environment := "staging"
    , stack_name := "staging-app-stack"
    , commit_hash := "def5678"
    , commit_message := "Add production RDS with read replicas"
    , author := "Jane Smith"
    , triggered_at := now - 45
    , completed_at := some (now - 35)
    , pipeline_url := some "https://github.com/org/repo/actions/runs/1233" }
  , { pipeline_id := "GHA-1232"
    , pipeline_name := "Deploy Infrastructure"
    , status := "success"
    , environment := "dev"
    , stack_name := "dev-test-stack"
    , commit_hash := "def5678"
    , commit_message := "Add production RDS with read replicas"
    , author := "Jane Smith"
    , triggered_at := now - 60
    , completed_at := some (now - 50)
    , pipeline_url := some "https://github.com/org/repo/actions/runs/1232" }
  , { pipeline_id := "GHA-1231"
    , pipeline_name := "Deploy Infrastructure"
    , status := "failed"
    , environment := "dev"
    , stack_name := "dev-failed-stack"
    , commit_hash := "ghi9012"
    , commit_message := "Update security groups"
    , author := "Bob Wilson"
    , triggered_at := now - 180
    , completed_at := some (now - 175)
    , pipeline_url := some "https://github.com/org/repo/actions/runs/1231" }
  , { pipeline_id := "GHA-1230"
    , pipeline_name := "Deploy Infrastructure"
    , status := "running"
    , environment := "staging"
    , stack_name := "staging-update-stack"
    , commit_hash := "jkl3456"
    , commit_message := "Update Lambda functions"
    , author := "Alice Johnson"
    , triggered_at := now - 10
    , completed_at := none
    , pipeline_url := some "https://github.com/org/repo/actions/runs/1230" } ]

/-- Embeds `_get_github_deployments` (lines 75-79): the body ignores `limit`
and returns the demo data ("This would call GitHub API / For now, return
demo data"). -/
def get_github_deployments (_limit : Nat) (now : Int) : List CICDDeployment :=
  get_demo_deployments now

/-- Embeds `_get_gitlab_deployments` (lines 81-85): likewise returns the
demo data. -/
def get_gitlab_deployments (_limit : Nat) (now : Int) : List CICDDeployment :=
  get_demo_deployments now

/-- Python truthiness of the `api_token` attribute: `not self.api_token`
holds when the token is `None` or the empty string. -/
def token_is_falsy : Option String → Bool
  | none => true
  | some s => s = ""

/-- Embeds `CICDIntegrationManager.get_recent_deployments` (lines 63-73):
without a truthy token it falls back to the demo data; with one it
dispatches on the provider string (both provider paths currently also
return the demo data). -/
def get_recent_deployments (api_token : Option String) (provider : String)
    (limit : Nat) (now : Int) : List CICDDeployment :=
  if token_is_falsy api_token then get_demo_deployments now
  else if provider = "github" then get_github_deployments limit now
  else if provider = "gitlab" then get_gitlab_deployments limit now
  else get_demo_deployments now

/-- Result dictionary of `approve_deployment` / `reject_deployment`. -/
structure ActionResult where
  success : Bool
  message : String
deriving Repr, DecidableEq

/-- Embeds `CICDIntegrationManager.approve_deployment` (lines 174-177): it
takes only the pipeline id, consults no deployment state, mutates nothing,
and unconditionally returns a success dictionary. -/
def approve_deployment (pipeline_id : String) : ActionResult :=
  { success := true, message := "Pipeline " ++ pipeline_id ++ " approved" }

/-- Embeds `CICDIntegrationManager.reject_deployment` (lines 179-182):
unconditionally returns a success dictionary, for any reason string
(including the empty one), and mutates nothing. -/
def reject_deployment (pipeline_id : String) (reason : String) : ActionResult :=
  { success := true
  , message := "Pipeline " ++ pipeline_id ++ " rejected: " ++ reason }

/-- Result dictionary of `trigger_pipeline`. -/
structure TriggerResult where
  success : Bool
  pipeline_id : String
  pipeline_url : String
deriving Repr, DecidableEq

/-- Embeds `CICDIntegrationManager.trigger_pipeline` (lines 184-192): it
ignores branch, environment and parameters, creates no record, and always
returns the constant pipeline id `GHA-9999`. -/
def trigger_pipeline (repo : String) (_branch : String) (_environment : String)
    (_parameters : Option (List (String × String))) : TriggerResult :=
  { success := true
  , pipeline_id := "GHA-9999"
  , pipeline_url := "https://github.com/" ++ repo ++ "/actions/runs/9999" }

/-- Session-state lookup, mirroring `key in st.session_state` followed by
`st.session_state[key]` on a Python dict, modelled as an association list
(first binding wins, as dict keys are unique). -/
def ss_lookup {α : Type} : List (String × α) → String → Option α
  | [], _ => none
  | (k, v) :: rest, key => if key = k then some v else ss_lookup rest key

/-- Result of one `load_once` call: the returned value, the session state
after the call, and how many times the loader ran during the call. -/
structure LoadResult (α : Type) where
  value : α
  state : List (String × α)
  loader_calls : Nat
deriving Repr

/-- Embeds `PerformanceOptimizer.load_once` (modules_provisioning.py, lines
61-66): if `key` is absent from `st.session_state`, run the loader and store
its value under `key`; then return `st.session_state[key]`.  The function
takes no clock and no ttl: its behaviour depends only on the session state
and the key. -/
def load_once {α : Type} (ss : List (String × α)) (key : String)
    (loader_func : Unit → α) : LoadResult α :=
  match ss_lookup ss key with
  | some v => { value := v, state := ss, loader_calls := 0 }
  | none =>
      { value := loader_func ()
      , state := (key, loader_func ()) :: ss
      , loader_calls := 1 }

/-- The session-state flag key built by `cache_with_spinner` (line 47):
`cache_` followed by the wrapped function name only — arguments never enter
the key. -/
def cache_flag_key (func_name : String) : String := "cache_" ++ func_name

/-- Python `key.startswith(p)`, computed structurally on the character
lists of the two strings. -/
def key_starts_with (k : String) (p : String) : Bool :=
  p.data.isPrefixOf k.data

/-- Combined cache state seen by `add_refresh_button`: the per-session
`st.session_state` entries (as stored by `load_once`) and the process-wide
`st.cache_data` memo entries (as populated by `cache_with_spinner`).
Values are abstracted to `Nat`. -/
structure AppCacheState where
  session_state : List (String × Nat)
  cache_data_entries : List (String × Nat)
deriving Repr, DecidableEq

/-- Embeds the click branch of `PerformanceOptimizer.add_refresh_button`
(modules_provisioning.py, lines 74-84).  With a truthy `cache_keys` list,
each named key is deleted from the session state if present, and then
`st.cache_data.clear()` wipes every cache-data entry.  With `cache_keys`
falsy (`None` or an empty list), `st.cache_data.clear()` runs and only the
session-state keys starting with `cache_` or `resource_` are deleted. -/
def add_refresh_button_clear (cache_keys : Option (List String))
    (s : AppCacheState) : AppCacheState :=
  match cache_keys with
  | some keys =>
      if keys.isEmpty then
        { session_state := s.session_state.filter
            (fun kv => !(key_starts_with kv.1 "cache_" || key_starts_with kv.1 "resource_"))
        , cache_data_entries := [] }
      else
        { session_state := s.session_state.filter (fun kv => !(keys.contains kv.1))
        , cache_data_entries := [] }
  | none =>
      { session_state := s.session_state.filter
          (fun kv => !(key_starts_with kv.1 "cache_" || key_starts_with kv.1 "resource_"))
      , cache_data_entries := [] }

/-- How a `render` call ends, following the early-return structure of
`ProvisioningModuleEnhanced.render` and `OperationsModule.render`. -/
inductive RenderOutcome where
  | no_account_manager
  | no_accounts
  | no_selection
  | region_error
  | session_failed
  | rendered
deriving Repr, DecidableEq

/-- Trace of one `render` call: its outcome and the `(account, region)`
arguments of every `get_session_with_region` call it made. -/
structure RenderTrace where
  outcome : RenderOutcome
  session_requests : List (String × String)
deriving Repr, DecidableEq

/-- The region read by both render methods:
`st.session_state.get('selected_regions', 'all')`. -/
def selected_region_or_default (stored : Option String) : String :=
  stored.getD "all"

/-- Embeds the guard structure of `ProvisioningModuleEnhanced.render`
(modules_resource_inventory.py, lines 201-288): missing account manager,
empty account list and empty selection return early; a selected region equal
to `'all'` raises the region error and returns before any session is
resolved; otherwise `get_session_with_region` is called once with the
selected account and region. `get_session` abstracts whether that external
call returns a session. -/
def provisioning_render (has_account_mgr : Bool) (account_names : List String)
    (selected_account : Option String) (selected_region : String)
    (get_session : String → String → Bool) : RenderTrace :=
  if !has_account_mgr then
    { outcome := .no_account_manager, session_requests := [] }
  else if account_names.isEmpty then
    { outcome := .no_accounts, session_requests := [] }
  else
    match selected_account with
    | none => { outcome := .no_selection, session_requests := [] }
    | some acct =>
        if selected_region = "all" then
          { outcome := .region_error, session_requests := [] }
        else if !(get_session acct selected_region) then
          { outcome := .session_failed
          , session_requests := [(acct, selected_region)] }
        else
          { outcome := .rendered
          , session_requests := [(acct, selected_region)] }

/-- Embeds the guard structure of `OperationsModule.render`
(modules_operations.py, lines 18-89), which has the same early-return
shape: the `'all'` sentinel aborts with an error before
`get_session_with_region` is reached. -/
def operations_render (has_account_mgr : Bool) (account_names : List String)
    (selected_account : Option String) (selected_region : String)
    (get_session : String → String → Bool) : RenderTrace :=
  if !has_account_mgr then
    { outcome := .no_account_manager, session_requests := [] }
  else if account_names.isEmpty then
    { outcome := .no_accounts, session_requests := [] }
  else
    match selected_account with
    | none => { outcome := .no_selection, session_requests := [] }
    | some acct =>
        if selected_region = "all" then
          { outcome := .region_error, session_requests := [] }
        else if !(get_session acct selected_region) then
          { outcome := .session_failed
          , session_requests := [(acct, selected_region)] }
        else
          { outcome := .rendered
          , session_requests := [(acct, selected_region)] }

/-! Helper lemmas about the session-state cache. -/

/-- After any `load_once` call, the key is bound in the resulting state to
the value the call returned. -/
lemma ss_lookup_load_once_self {α : Type} (ss : List (String × α)) (k : String)
    (f : Unit → α) :
    ss_lookup (load_once ss k f).state k = some (load_once ss k f).value := by
  cases h : ss_lookup ss k <;> simp [load_once, h, ss_lookup]

/-- When the key is already bound, `load_once` returns the stored value,
leaves the state unchanged and never runs the loader. -/
lemma load_once_lookup_some {α : Type} {ss : List (String × α)} {k : String}
    {v : α} (g : Unit → α) (h : ss_lookup ss k = some v) :
    load_once ss k g = { value := v, state := ss, loader_calls := 0 } := by
  simp [load_once, h]

/-- Lookup commutes with filtering the session state by a predicate on
keys. -/
lemma ss_lookup_filter (p : String → Bool) (ss : List (String × Nat))
    (k : String) :
    ss_lookup (ss.filter (fun kv => p kv.1)) k =
      if p k then ss_lookup ss k else none := by
  induction ss with
  | nil => simp [ss_lookup]
  | cons hd tl ih =>
      obtain ⟨a, v⟩ := hd
      cases hp : p a with
      | false =>
          rw [List.filter_cons]
          simp only [hp, Bool.false_eq_true, if_false]
          rw [ih]
          by_cases hkk : k = a
          · subst hkk
            simp [ss_lookup, hp]
          · simp [ss_lookup, hkk]
      | true =>
          rw [List.filter_cons]
          simp only [hp, if_true]
          by_cases hkk : k = a
          · subst hkk
            simp [ss_lookup, hp]
          · simp [ss_lookup, hkk, ih]

/-! Claim theorems. -/

/-- Claim C1, counterexample.  The claim says approving a deployment in
state `success` (or `running`/`failed`) fails with an invalid-transition
error.  In the code, demo deployment `GHA-1234` is in state `success`, yet
`approve_deployment "GHA-1234"` reports success. -/
theorem approve_succeeds_on_completed_deployment :
    ((get_demo_deployments 0).find?
        (fun d => d.pipeline_id == "GHA-1234")).map CICDDeployment.status
      = some "success"
    ∧ (approve_deployment "GHA-1234").success = true :=
  ⟨rfl, rfl⟩

/-- Claim C1, amended.  `approve_deployment` is a pure function of the
pipeline id: it always reports success with a fixed message, for every
pipeline id regardless of the deployment's state, and it performs no state
change (it neither reads nor writes any deployment record). -/
theorem approve_deployment_always_succeeds (pipeline_id : String) :
    (approve_deployment pipeline_id).success = true
    ∧ (approve_deployment pipeline_id).message
        = "Pipeline " ++ pipeline_id ++ " approved" :=
  ⟨rfl, rfl⟩

/-- Claim C2, counterexample.  The claim says a reject with an empty
reason, or on a deployment not in `pending_approval`, fails.  In the code,
rejecting the pending deployment `GHA-1235` with the empty reason reports
success, and so does rejecting `GHA-1234`, which is in state `success`. -/
theorem reject_succeeds_on_empty_reason_and_completed :
    ((get_demo_deployments 0).find?
        (fun d => d.pipeline_id == "GHA-1235")).map CICDDeployment.status
      = some "pending_approval"
    ∧ (reject_deployment "GHA-1235" "").success = true
    ∧ ((get_demo_deployments 0).find?
        (fun d => d.pipeline_id == "GHA-1234")).map CICDDeployment.status
      = some "success"
    ∧ (reject_deployment "GHA-1234" "needs review").success = true :=
  ⟨rfl, rfl, rfl, rfl⟩

/-- Claim C2, amended.  `reject_deployment` always reports success with a
fixed message, for every pipeline id and every reason string including the
empty one, and it performs no state change. -/
theorem reject_deployment_always_succeeds (pipeline_id reason : String) :
    (reject_deployment pipeline_id reason).success = true
    ∧ (reject_deployment pipeline_id reason).message
        = "Pipeline " ++ pipeline_id ++ " rejected: " ++ reason :=
  ⟨rfl, rfl⟩

/-- Claim C6, counterexample.  The claim says every fallback record is
distinguishable from live data by an explicit data-source flag in its
shape.  In the code the "live" github path (token configured) returns a
list equal to the credential-less fallback, so no field of the result
distinguishes the two. -/
theorem live_path_equals_fallback :
    get_recent_deployments (some "ghp_token") "github" 20 0
      = get_recent_deployments none "github" 20 0 :=
  rfl

/-- Claim C6, amended.  When no provider API token is configured,
`get_recent_deployments` returns the fixed six-record demo list rather
than failing, for every provider and limit; but the records carry no
data-source flag (the `CICDDeployment` shape has no such field), and the
github live path returns the identical records, so callers cannot tell
fallback from live data by shape. -/
theorem fallback_fixed_and_indistinguishable (provider : String) (limit : Nat)
    (now : Int) :
    get_recent_deployments none provider limit now = get_demo_deployments now
    ∧ (get_demo_deployments now).length = 6
    ∧ get_github_deployments limit now = get_demo_deployments now := by
  refine ⟨?_, rfl, rfl⟩
  simp [get_recent_deployments, token_is_falsy]

/-- Claim C9, counterexample.  The claim says two successive
`trigger_pipeline` calls return distinct pipeline ids.  In the code every
trigger returns the constant id `GHA-9999`, so two successive triggers
(here with different branch and environment) return equal ids. -/
theorem trigger_twice_same_pipeline_id :
    (trigger_pipeline "myorg/infrastructure" "main" "staging" none).pipeline_id
      = (trigger_pipeline "myorg/infrastructure" "main" "production"
          none).pipeline_id
    ∧ (trigger_pipeline "myorg/infrastructure" "main" "staging"
          none).pipeline_id = "GHA-9999" :=
  ⟨rfl, rfl⟩

/-- Claim C9, amended.  `trigger_pipeline` always reports success with the
constant pipeline id `GHA-9999` and creates no deployment record; the six
hard-coded demo records themselves do have pairwise-distinct pipeline
ids. -/
theorem trigger_constant_id_and_demo_ids_distinct (repo branch env : String)
    (params : Option (List (String × String))) (now : Int) :
    (trigger_pipeline repo branch env params).pipeline_id = "GHA-9999"
    ∧ (trigger_pipeline repo branch env params).success = true
    ∧ ((get_demo_deployments now).map CICDDeployment.pipeline_id).Nodup := by
  refine ⟨rfl, rfl, ?_⟩
  have hm : (get_demo_deployments now).map CICDDeployment.pipeline_id
      = ["GHA-1234", "GHA-1235", "GHA-1233", "GHA-1232", "GHA-1231",
         "GHA-1230"] := rfl
  rw [hm]
  decide

/-- Claim C10, confirmed.  In the credential-less path (no API token), the
`limit` argument of `get_recent_deployments` has no effect: for every
provider, every pair of limits and every clock value the call returns the
identical fixed list of exactly six records. -/
theorem credentialless_limit_has_no_effect (provider : String)
    (limit₁ limit₂ : Nat) (now : Int) :
    get_recent_deployments none provider limit₁ now = get_demo_deployments now
    ∧ get_recent_deployments none provider limit₁ now
        = get_recent_deployments none provider limit₂ now
    ∧ (get_recent_deployments none provider limit₁ now).length = 6 := by
  have h : ∀ l, get_recent_deployments none provider l now
      = get_demo_deployments now := by
    intro l
    simp [get_recent_deployments, token_is_falsy]
  refine ⟨h limit₁, ?_, ?_⟩
  · rw [h limit₁, h limit₂]
  · rw [h limit₁]
    rfl

/-- Claim C3, counterexample.  The claim says a cache access made after the
ttl has elapsed since the value was stored invokes the loader again and
replaces the entry.  `load_once` consults no clock and takes no ttl, so a
later call — however much time has passed, in particular more than the
300-second ttl the module uses — returns the stored value, runs the loader
zero times and leaves the entry in place (here a second loader returning
200 is never run and the stored 100 is served). -/
theorem load_once_no_ttl_expiry :
    (load_once (load_once ([] : List (String × Nat)) "resource_analytics"
        (fun _ => 100)).state "resource_analytics" (fun _ => 200)).loader_calls
      = 0
    ∧ (load_once (load_once ([] : List (String × Nat)) "resource_analytics"
        (fun _ => 100)).state "resource_analytics" (fun _ => 200)).value = 100
    ∧ (load_once (load_once ([] : List (String × Nat)) "resource_analytics"
        (fun _ => 100)).state "resource_analytics" (fun _ => 200)).state
      = (load_once ([] : List (String × Nat)) "resource_analytics"
        (fun _ => 100)).state :=
  ⟨rfl, rfl, rfl⟩

/-- Claim C3, amended.  Two consecutive `load_once` calls for the same key
invoke the loader at most once: the second call runs its loader zero times,
returns exactly the value the first call returned, and leaves the session
state unchanged — and since `load_once` reads no clock, this holds
regardless of elapsed time; only explicit invalidation (deleting the key)
can cause a reload. -/
theorem load_once_second_call_no_reload {α : Type} (ss : List (String × α))
    (k : String) (f g : Unit → α) :
    (load_once (load_once ss k f).state k g).loader_calls = 0
    ∧ (load_once (load_once ss k f).state k g).value = (load_once ss k f).value
    ∧ (load_once (load_once ss k f).state k g).state
        = (load_once ss k f).state := by
  rw [load_once_lookup_some g (ss_lookup_load_once_self ss k f)]
  exact ⟨rfl, rfl, rfl⟩

/-- Claim C4, counterexample.  The claim says two cache accesses for
distinct loaders never read or write the same entry.  `load_once` keys
entries by the caller-supplied string alone: a first loader stores 1 under
`resource_inventory`, and a second, different loader using the same key
reads that same entry (it gets value 1 and is never invoked). -/
theorem load_once_distinct_loaders_collide :
    (load_once (load_once ([] : List (String × Nat)) "resource_inventory"
        (fun _ => 1)).state "resource_inventory" (fun _ => 2)).value = 1
    ∧ (load_once (load_once ([] : List (String × Nat)) "resource_inventory"
        (fun _ => 1)).state "resource_inventory" (fun _ => 2)).loader_calls
      = 0 :=
  ⟨rfl, rfl⟩

/-- Claim C4, amended.  The entry a `load_once` access reads or writes is
determined solely by the caller-supplied key string and never by the
loader: after any call with key `k` and arbitrary loader `f`, looking up
`k'` yields the call's value exactly when `k' = k` and is otherwise
untouched.  Hence distinct loaders sharing a key share an entry, while
distinct keys never interfere.  (The `cache_with_spinner` session flag key
is likewise loader-argument-blind: it is `cache_` ++ function name.) -/
theorem load_once_key_determines_entry {α : Type} (ss : List (String × α))
    (k k' : String) (f : Unit → α) :
    ss_lookup (load_once ss k f).state k'
      = (if k' = k then some (load_once ss k f).value else ss_lookup ss k')
    ∧ cache_flag_key "generate_comprehensive_inventory"
        = "cache_generate_comprehensive_inventory" := by
  refine ⟨?_, rfl⟩
  cases h : ss_lookup ss k with
  | some v =>
      simp only [load_once, h]
      split
      · next hkk => rw [hkk]; exact h
      · rfl
  | none =>
      simp [load_once, h, ss_lookup]

/-- Claim C5 (code bug).  The claim — backed by the spec's ordering
contract and by the UI's own "Sort by: Recent First" selector, which the
code reads but never applies — says listings are sorted by `triggered_at`
descending.  The credential-less listing returns the demo records in
hard-coded order with trigger offsets `[-120, -30, -45, -60, -180, -10]`
minutes, which is not descending (the first record is 120 minutes old, the
second only 30). -/
theorem demo_deployments_not_sorted_by_triggered_at :
    (get_recent_deployments none "github" 20 0).map CICDDeployment.triggered_at
      = [-120, -30, -45, -60, -180, -10]
    ∧ ¬ List.Sorted (· ≥ ·)
        ((get_recent_deployments none "github" 20 0).map
          CICDDeployment.triggered_at) := by
  refine ⟨rfl, ?_⟩
  rw [show (get_recent_deployments none "github" 20 0).map
      CICDDeployment.triggered_at
      = ([-120, -30, -45, -60, -180, -10] : List Int) from rfl]
  decide

/-- Claim C7, confirmed.  With a configured account manager, a non-empty
account list and a selected account, a selected region equal to the
wildcard sentinel `all` makes both render methods abort with the region
error and issue no `get_session_with_region` call; and in every run of
either render method, every `get_session_with_region` call carries a
region different from `all`. -/
theorem render_region_guard (names : List String) (acct : String)
    (gs : String → String → Bool) (h : names ≠ []) :
    (provisioning_render true names (some acct) "all" gs).outcome
      = RenderOutcome.region_error
    ∧ (provisioning_render true names (some acct) "all" gs).session_requests
      = []
    ∧ (operations_render true names (some acct) "all" gs).outcome
      = RenderOutcome.region_error
    ∧ (operations_render true names (some acct) "all" gs).session_requests
      = []
    ∧ (∀ ham sel region, ∀ q ∈ (provisioning_render ham names sel region
        gs).session_requests, q.2 ≠ "all")
    ∧ (∀ ham sel region, ∀ q ∈ (operations_render ham names sel region
        gs).session_requests, q.2 ≠ "all") := by
  have hne : names.isEmpty = false := by
    cases names with
    | nil => exact absurd rfl h
    | cons a l => rfl
  refine ⟨?_, ?_, ?_, ?_, ?_, ?_⟩
  · simp [provisioning_render, hne]
  · simp [provisioning_render, hne]
  · simp [operations_render, hne]
  · simp [operations_render, hne]
  · intro ham sel region q hq
    simp only [provisioning_render] at hq
    repeat' split at hq
    all_goals simp_all
  · intro ham sel region q hq
    simp only [operations_render] at hq
    repeat' split at hq
    all_goals simp_all

/-- Witness for the region-guard theorem at a concrete configuration. -/
theorem render_region_guard_witness :
    (["Production"] ≠ ([] : List String))
    ∧ ((provisioning_render true ["Production"] (some "Production") "all"
          (fun _ _ => true)).outcome = RenderOutcome.region_error
      ∧ (provisioning_render true ["Production"] (some "Production") "all"
          (fun _ _ => true)).session_requests = []
      ∧ (operations_render true ["Production"] (some "Production") "all"
          (fun _ _ => true)).outcome = RenderOutcome.region_error
      ∧ (operations_render true ["Production"] (some "Production") "all"
          (fun _ _ => true)).session_requests = []
      ∧ (∀ ham sel region, ∀ q ∈ (provisioning_render ham ["Production"] sel
          region (fun _ _ => true)).session_requests, q.2 ≠ "all")
      ∧ (∀ ham sel region, ∀ q ∈ (operations_render ham ["Production"] sel
          region (fun _ _ => true)).session_requests, q.2 ≠ "all")) :=
  ⟨by decide,
    render_region_guard ["Production"] "Production" (fun _ _ => true)
      (by decide)⟩

/-- Claim C8, counterexample.  The claim says invalidation with an explicit
key set leaves every cached entry for a key outside the set unchanged, and
that invalidation with no keys clears all entries.  In the code, the
explicit-keys branch also runs `st.cache_data.clear()`, wiping the
cache-data entry stored under the unrelated key
`generate_comprehensive_inventory`; and the no-keys branch deletes only
session-state keys starting with `cache_` or `resource_`, so the entry
under `my_data` survives a supposedly full clear. -/
theorem refresh_wipes_unrelated_and_misses_unmatched :
    (add_refresh_button_clear (some ["resource_inventory"])
        { session_state := [("resource_inventory", 1), ("my_data", 2)]
        , cache_data_entries :=
            [("generate_comprehensive_inventory", 7)] }).cache_data_entries
      = []
    ∧ ss_lookup (add_refresh_button_clear none
        { session_state := [("resource_inventory", 1), ("my_data", 2)]
        , cache_data_entries :=
            [("generate_comprehensive_inventory", 7)] }).session_state
        "my_data"
      = some 2 := by
  exact ⟨rfl, rfl⟩

/-- Claim C8, amended.  The refresh action never fails (it is total, and
keys never populated are simply skipped).  With a non-empty explicit key
list it removes exactly the named keys from the session state — lookup of
any key outside the list is unchanged there — but it additionally clears
the entire `st.cache_data` store; with no key list it clears the
`st.cache_data` store and removes only the session-state entries whose key
starts with `cache_` or `resource_`, leaving every other session-state
entry in place. -/
theorem refresh_explicit_and_full_clear (keys : List String)
    (s : AppCacheState) (k : String) (h : keys ≠ []) :
    ss_lookup (add_refresh_button_clear (some keys) s).session_state k
      = (if keys.contains k then none else ss_lookup s.session_state k)
    ∧ (add_refresh_button_clear (some keys) s).cache_data_entries = []
    ∧ ss_lookup (add_refresh_button_clear none s).session_state k
      = (if key_starts_with k "cache_" || key_starts_with k "resource_" then none
         else ss_lookup s.session_state k)
    ∧ (add_refresh_button_clear none s).cache_data_entries = [] := by
  have hke : keys.isEmpty = false := by
    cases keys with
    | nil => exact absurd rfl h
    | cons a l => rfl
  refine ⟨?_, ?_, ?_, ?_⟩
  · simp only [add_refresh_button_clear, hke, Bool.false_eq_true, if_false]
    rw [ss_lookup_filter (fun key => !(keys.contains key))]
    cases hc : keys.contains k <;> simp [hc]
  · simp [add_refresh_button_clear, hke]
  · simp only [add_refresh_button_clear]
    rw [ss_lookup_filter
      (fun key => !(key_starts_with key "cache_" || key_starts_with key "resource_"))]
    cases hc : (key_starts_with k "cache_" || key_starts_with k "resource_") <;>
      simp [hc]
  · simp [add_refresh_button_clear]

/-- Witness for the refresh theorem at a concrete cache state. -/
theorem refresh_explicit_and_full_clear_witness :
    (["resource_analytics"] ≠ ([] : List String))
    ∧ (ss_lookup (add_refresh_button_clear (some ["resource_analytics"])
          { session_state := [("resource_analytics", 3), ("other", 4)]
          , cache_data_entries := [("memo", 5)] }).session_state "other"
        = (if (["resource_analytics"] : List String).contains "other" then none
           else ss_lookup ([("resource_analytics", 3), ("other", 4)]
              : List (String × Nat)) "other")
      ∧ (add_refresh_button_clear (some ["resource_analytics"])
          { session_state := [("resource_analytics", 3), ("other", 4)]
          , cache_data_entries := [("memo", 5)] }).cache_data_entries = []
      ∧ ss_lookup (add_refresh_button_clear none
          { session_state := [("resource_analytics", 3), ("other", 4)]
          , cache_data_entries := [("memo", 5)] }).session_state "other"
        = (if key_starts_with "other" "cache_" || key_starts_with "other" "resource_"
           then none
           else ss_lookup ([("resource_analytics", 3), ("other", 4)]
              : List (String × Nat)) "other")
      ∧ (add_refresh_button_clear none
          { session_state := [("resource_analytics", 3), ("other", 4)]
          , cache_data_entries := [("memo", 5)] }).cache_data_entries = []) :=
  ⟨by decide,
    refresh_explicit_and_full_clear ["resource_analytics"]
      { session_state := [("resource_analytics", 3), ("other", 4)]
      , cache_data_entries := [("memo", 5)] } "other" (by decide)⟩

end Awscldidp
